import Mathlib

/-!
Verification of the mobile-battery rental system (src/app.py, src/variables.py).

The embedding models the database as keyed tables (`Nat → Option row`) plus the
autoincrement counter for the rentals table, and each HTTP handler of app.py as a
function from a database state and request parameters to the resulting database
state and a typed outcome.  Timestamps are integer seconds (`datetime.utcnow()`
values), money is integer cents, and JSON numbers arriving in requests are
rationals.

The schema itself (models.py) is not under src/.  Where a definition depends on
it, the schema is modelled from the spec, section 3: a Rental is created with
`start_at` = current time, and its `end_at`, `price_cents`, `return_station_id`
columns are nullable and default to NULL; `battery_id` is nullable after the
shipped migration (src/migrate_rentals_nullable.py).
-/

/-- PRICE_PER_MINUTE_CENTS from src/variables.py (env-configurable, default 10). -/
def PRICE_PER_MINUTE_CENTS : Int := 10

/-- RENTAL_DEPOSIT_CENTS from src/variables.py (env-configurable, default 1000). -/
def RENTAL_DEPOSIT_CENTS : Int := 1000

/-- Status column of the rentals table: "ongoing", "returned" or "charged". -/
inductive RentalStatus
  | ongoing
  | returned
  | charged
deriving DecidableEq

/-- Modelled from the spec: users table row (only the columns the core reads). -/
structure User where
  id : Nat
  balance_cents : Int
deriving DecidableEq

/-- Modelled from the spec: stations table row. -/
structure Station where
  id : Nat
  name : String
deriving DecidableEq

/-- Modelled from the spec: batteries table row; `station_id` is nullable. -/
structure Battery where
  id : Nat
  serial : String
  station_id : Option Nat
  available : Bool
deriving DecidableEq

/-- Modelled from the spec: rentals table row after the nullable-battery_id
migration; `end_at`, `price_cents`, `return_station_id` are nullable. -/
structure Rental where
  id : Nat
  user_id : Nat
  battery_id : Option Nat
  start_at : Int
  end_at : Option Int
  status : RentalStatus
  price_cents : Option Int
  return_station_id : Option Nat
deriving DecidableEq

/-- The database: keyed tables plus the autoincrement counter for rentals.
SQLite assigns rental ids from the counter; existing rows sit below it. -/
structure DB where
  users : Nat → Option User
  batteries : Nat → Option Battery
  stations : Nat → Option Station
  rentals : Nat → Option Rental
  nextRentalId : Nat

/-- Typed outcomes of the JSON endpoints of app.py.  `missingParam` is the
"battery_id required" / "rental_id required" 400 answer (a falsy id in the JSON
body), `serverError` the 500 produced when an exception rolls the transaction
back. -/
inductive ApiError
  | missingParam
  | batteryNotAvailable
  | insufficientBalance
  | invalidRental
  | invalidAmount
  | serverError
deriving DecidableEq

/-- Python's `int()` applied to a JSON number: truncation toward zero
(app.py line 607: `amount = int(data.get("amount", 0))`). -/
def pyInt (q : ℚ) : Int := q.num.tdiv q.den

/-- The pricing computation of api_return / return_page (app.py lines 578-581):
`minutes = max(1, int((end_time - start_time).total_seconds() // 60))`,
`price = minutes * rate`.  Python's `//` is floor division, hence `Int.fdiv`. -/
def priceCalc (start_at end_at rate : Int) : Int :=
  max 1 ((end_at - start_at).fdiv 60) * rate

/-- get_user_balance (app.py lines 70-74): a missing user reads as balance 0. -/
def get_user_balance (db : DB) (user_id : Nat) : Int :=
  match db.users user_id with
  | some u => u.balance_cents
  | none => 0

/-- The row set produced by get_user_rentals_with_details (app.py lines 85-95)
before ordering: the user's rentals INNER-joined with batteries on
`Rental.battery_id == Battery.id` (a NULL battery_id matches no battery row, and
a dangling battery_id finds none, so such rentals are dropped), then
LEFT-OUTER-joined with stations on `Battery.station_id == Station.id`. -/
def userHistoryRows (db : DB) (user_id : Nat) :
    List (Rental × Battery × Option Station) :=
  (List.range db.nextRentalId).filterMap fun i =>
    match db.rentals i with
    | none => none
    | some r =>
      if r.user_id = user_id then
        match r.battery_id with
        | none => none
        | some bid =>
          match db.batteries bid with
          | none => none
          | some b => some (r, b, b.station_id.bind db.stations)
      else none

/-- Insertion step for ordering joined rows by `start_at` descending. -/
def insertByStartDesc (x : Rental × Battery × Option Station) :
    List (Rental × Battery × Option Station) → List (Rental × Battery × Option Station)
  | [] => [x]
  | y :: ys =>
    if y.1.start_at ≤ x.1.start_at then x :: y :: ys else y :: insertByStartDesc x ys

/-- Ordering of the joined rows by `start_at` descending (ORDER BY start_at DESC). -/
def sortByStartDesc :
    List (Rental × Battery × Option Station) → List (Rental × Battery × Option Station)
  | [] => []
  | x :: xs => insertByStartDesc x (sortByStartDesc xs)

/-- get_user_rentals_with_details (app.py lines 85-95). -/
def get_user_rentals_with_details (db : DB) (user_id : Nat) :
    List (Rental × Battery × Option Station) :=
  sortByStartDesc (userHistoryRows db user_id)

/-- api_rent (app.py lines 521-555).  A falsy battery_id (0 in the JSON body) is
rejected as "battery_id required" before the database is touched.  Inside the
transaction: missing or unavailable battery answers "battery not available"; a
missing user makes `user.balance_cents` raise, the transaction rolls back and
the handler answers 500; a balance below the deposit gate answers "insufficient
balance"; otherwise one ongoing Rental row is inserted at the next id, with
`start_at` = now, and the battery flips to unavailable. -/
def api_rent (db : DB) (user_id battery_id : Nat) (now : Int) :
    DB × Except ApiError Nat :=
  if battery_id = 0 then (db, .error .missingParam)
  else
    match db.batteries battery_id with
    | none => (db, .error .batteryNotAvailable)
    | some b =>
      if b.available = false then (db, .error .batteryNotAvailable)
      else
        match db.users user_id with
        | none => (db, .error .serverError)
        | some u =>
          if u.balance_cents < RENTAL_DEPOSIT_CENTS then
            (db, .error .insufficientBalance)
          else
            ({ db with
                batteries := fun i =>
                  if i = battery_id then some { b with available := false }
                  else db.batteries i,
                rentals := fun i =>
                  if i = db.nextRentalId then
                    some { id := db.nextRentalId, user_id := user_id,
                           battery_id := some battery_id, start_at := now,
                           end_at := none, status := RentalStatus.ongoing,
                           price_cents := none, return_station_id := none }
                  else db.rentals i,
                nextRentalId := db.nextRentalId + 1 },
             .ok db.nextRentalId)

/-- api_return (app.py lines 557-599).  A falsy rental_id is rejected as
"rental_id required".  Inside the transaction: a missing, foreign or
non-ongoing rental answers "invalid rental"; the price is computed from
`start_at` and the current time; a missing user makes the balance check raise
(rollback, 500); a balance below the price answers "insufficient balance"; a
NULL or dangling battery reference makes `battery.available = True` raise after
the in-session mutations, which the rollback discards (500).  On success the
balance is debited, the rental gets `end_at`, `price_cents` and status
"returned", and the battery becomes available again. -/
def api_return (db : DB) (user_id rental_id : Nat) (now : Int) :
    DB × Except ApiError (Int × Int) :=
  if rental_id = 0 then (db, .error .missingParam)
  else
    match db.rentals rental_id with
    | none => (db, .error .invalidRental)
    | some r =>
      if r.user_id = user_id ∧ r.status = RentalStatus.ongoing then
        match db.users user_id with
        | none => (db, .error .serverError)
        | some u =>
          if u.balance_cents < priceCalc r.start_at now PRICE_PER_MINUTE_CENTS then
            (db, .error .insufficientBalance)
          else
            match r.battery_id with
            | none => (db, .error .serverError)
            | some bid =>
              match db.batteries bid with
              | none => (db, .error .serverError)
              | some b =>
                ({ db with
                    users := fun i =>
                      if i = user_id then
                        some { u with balance_cents :=
                          u.balance_cents - priceCalc r.start_at now PRICE_PER_MINUTE_CENTS }
                      else db.users i,
                    rentals := fun i =>
                      if i = rental_id then
                        some { r with
                          end_at := some now,
                          price_cents := some (priceCalc r.start_at now PRICE_PER_MINUTE_CENTS),
                          status := RentalStatus.returned }
                      else db.rentals i,
                    batteries := fun i =>
                      if i = bid then some { b with available := true }
                      else db.batteries i },
                 .ok (priceCalc r.start_at now PRICE_PER_MINUTE_CENTS,
                      u.balance_cents - priceCalc r.start_at now PRICE_PER_MINUTE_CENTS))
      else (db, .error .invalidRental)

/-- api_charge (app.py lines 601-633).  The JSON amount is truncated by
Python's `int()` before any validation; a truncated value ≤ 0 answers "invalid
amount"; a missing user raises (rollback, 500); otherwise the balance is
credited with the truncated amount and one "charged" Rental row with NULL
battery_id and `price_cents` = minus the amount is inserted. -/
def api_charge (db : DB) (user_id : Nat) (amount_json : ℚ) (now : Int) :
    DB × Except ApiError Int :=
  if pyInt amount_json ≤ 0 then (db, .error .invalidAmount)
  else
    match db.users user_id with
    | none => (db, .error .serverError)
    | some u =>
      ({ db with
          users := fun i =>
            if i = user_id then
              some { u with balance_cents := u.balance_cents + pyInt amount_json }
            else db.users i,
          rentals := fun i =>
            if i = db.nextRentalId then
              some { id := db.nextRentalId, user_id := user_id, battery_id := none,
                     start_at := now, end_at := none, status := RentalStatus.charged,
                     price_cents := some (-(pyInt amount_json)),
                     return_station_id := none }
            else db.rentals i,
          nextRentalId := db.nextRentalId + 1 },
       .ok (u.balance_cents + pyInt amount_json))

/-- One committed request against the database: any api_rent, api_return or
api_charge call (successful or failed) by any caller with any parameters. -/
inductive Step : DB → DB → Prop
  | rent (db : DB) (u b : Nat) (t : Int) : Step db (api_rent db u b t).1
  | ret (db : DB) (u rid : Nat) (t : Int) : Step db (api_return db u rid t).1
  | charge (db : DB) (u : Nat) (q : ℚ) (t : Int) : Step db (api_charge db u q t).1

/-- The ledger invariant of spec section 3: a rental row's `end_at` is set
exactly when its status is "returned". -/
def EndAtConsistent (db : DB) : Prop :=
  ∀ i r, db.rentals i = some r → (r.end_at ≠ none ↔ r.status = RentalStatus.returned)

/-- Empty database: no rows at all, autoincrement at 1 (SQLite ids start at 1). -/
def emptyDB : DB :=
  { users := fun _ => none, batteries := fun _ => none, stations := fun _ => none,
    rentals := fun _ => none, nextRentalId := 1 }

/-- A user with a healthy balance and one available battery. -/
def rentDemoDB : DB :=
  { users := fun i => if i = 1 then some ⟨1, 5000⟩ else none,
    batteries := fun i => if i = 5 then some ⟨5, "B5", some 3, true⟩ else none,
    stations := fun _ => none,
    rentals := fun _ => none,
    nextRentalId := 1 }

/-- A user with balance below the deposit gate and one available battery. -/
def rentPoorDB : DB :=
  { users := fun i => if i = 1 then some ⟨1, 0⟩ else none,
    batteries := fun i => if i = 5 then some ⟨5, "B5", some 3, true⟩ else none,
    stations := fun _ => none,
    rentals := fun _ => none,
    nextRentalId := 1 }

/-- An ongoing rental whose holder has only 5 cents left. -/
def returnPoorDB : DB :=
  { users := fun i => if i = 1 then some ⟨1, 5⟩ else none,
    batteries := fun i => if i = 7 then some ⟨7, "B7", none, false⟩ else none,
    stations := fun _ => none,
    rentals := fun i =>
      if i = 1 then some ⟨1, 1, some 7, 100, none, RentalStatus.ongoing, none, none⟩
      else none,
    nextRentalId := 2 }

/-- An ongoing rental started at time 100, holder solvent: used to evaluate a
return whose wall clock reads earlier than the rental start. -/
def clockSkewDB : DB :=
  { users := fun i => if i = 1 then some ⟨1, 1000⟩ else none,
    batteries := fun i => if i = 7 then some ⟨7, "B7", none, false⟩ else none,
    stations := fun _ => none,
    rentals := fun i =>
      if i = 1 then some ⟨1, 1, some 7, 100, none, RentalStatus.ongoing, none, none⟩
      else none,
    nextRentalId := 2 }

/-- A single user holding 100 cents, no other rows. -/
def chargeDemoDB : DB :=
  { users := fun i => if i = 1 then some ⟨1, 100⟩ else none,
    batteries := fun _ => none, stations := fun _ => none,
    rentals := fun _ => none, nextRentalId := 1 }

/-- User 1 has one charge record (rental 1, battery_id NULL) and one ongoing
rental (rental 2) of battery 7, which sits at station 3. -/
def historyDemoDB : DB :=
  { users := fun i => if i = 1 then some ⟨1, 5000⟩ else none,
    batteries := fun i => if i = 7 then some ⟨7, "B7", some 3, false⟩ else none,
    stations := fun i => if i = 3 then some ⟨3, "S3"⟩ else none,
    rentals := fun i =>
      if i = 1 then some ⟨1, 1, none, 100, none, RentalStatus.charged, some (-500), none⟩
      else if i = 2 then some ⟨2, 1, some 7, 200, none, RentalStatus.ongoing, none, none⟩
      else none,
    nextRentalId := 3 }

/-- C10: the balance-lookup helper used by the pages returns 0 for a user id
with no User row, and the stored balance otherwise, so a missing user reads
exactly like a user with zero balance. -/
theorem get_user_balance_missing_user (db : DB) (u : Nat) :
    (db.users u = none → get_user_balance db u = 0) ∧
    (∀ u0 : User, db.users u = some u0 → get_user_balance db u = u0.balance_cents) := by
  constructor
  · intro h; simp [get_user_balance, h]
  · intro u0 h; simp [get_user_balance, h]

/-- Witness for C10 at a concrete missing user. -/
theorem get_user_balance_missing_user_witness :
    emptyDB.users 42 = none ∧ get_user_balance emptyDB 42 = 0 :=
  ⟨rfl, (get_user_balance_missing_user emptyDB 42).1 rfl⟩

/-- C2: for endTime ≥ startTime the settled price is
max(1, floor(elapsedSeconds / 60)) · ratePerMinute, where floor is
characterised by its defining inequalities; and the three pinned examples
price(t, t+30s, 10) = 10, price(t, t+150s, 10) = 20, price(t, t, 10) = 10 hold. -/
theorem price_matches_spec_formula :
    (∀ s e rate : Int, s ≤ e →
      ∃ m : Int, 0 ≤ m ∧ 60 * m ≤ e - s ∧ e - s < 60 * (m + 1) ∧
        priceCalc s e rate = max 1 m * rate) ∧
    (∀ t : Int,
      priceCalc t (t + 30) 10 = 10 ∧ priceCalc t (t + 150) 10 = 20 ∧
      priceCalc t t 10 = 10) := by
  constructor
  · intro s e rate h
    refine ⟨(e - s) / 60, ?_, ?_, ?_, ?_⟩
    · exact Int.ediv_nonneg (by omega) (by decide)
    · have h1 := Int.ediv_add_emod (e - s) 60
      have h2 := Int.emod_nonneg (e - s) (by decide : (60:Int) ≠ 0)
      omega
    · have h1 := Int.ediv_add_emod (e - s) 60
      have h2 := Int.emod_lt_of_pos (e - s) (by decide : (0:Int) < 60)
      omega
    · unfold priceCalc
      rw [Int.fdiv_eq_ediv _ (by decide : (0:Int) ≤ 60)]
  · intro t
    have h30 : t + 30 - t = (30:Int) := by ring
    have h150 : t + 150 - t = (150:Int) := by ring
    have h0 : t - t = (0:Int) := by ring
    refine ⟨?_, ?_, ?_⟩
    · unfold priceCalc; rw [h30]; decide
    · unfold priceCalc; rw [h150]; decide
    · unfold priceCalc; rw [h0]; decide

/-- Witness for C2 at elapsed 150 seconds and rate 10, plus a pinned example. -/
theorem price_matches_spec_formula_witness :
    ((0:Int) ≤ 150) ∧
    (∃ m : Int, 0 ≤ m ∧ 60 * m ≤ 150 - 0 ∧ 150 - 0 < 60 * (m + 1) ∧
      priceCalc 0 150 10 = max 1 m * 10) ∧
    priceCalc 0 (0 + 30) 10 = 10 :=
  ⟨by decide, price_matches_spec_formula.1 0 150 10 (by decide),
   (price_matches_spec_formula.2 0).1⟩

/-- Counterexample to C8 as stated: a return whose wall clock reads 61 seconds
before the rental's `start_at` is not treated as a defensive or fatal input
error — settlement proceeds normally, billing the 1-minute minimum: the rental
is closed as "returned" and the user is debited 10 cents. -/
theorem negative_elapsed_settles_normally_cex :
    priceCalc 100 39 10 = 10 ∧
    (api_return clockSkewDB 1 1 39).2 = Except.ok (10, 990) ∧
    ((api_return clockSkewDB 1 1 39).1.rentals 1).map Rental.status
      = some RentalStatus.returned ∧
    ((api_return clockSkewDB 1 1 39).1.users 1).map User.balance_cents = some 990 :=
  ⟨by decide, rfl, rfl, rfl⟩

/-- C8 (amended): the computed price is never negative (for a nonnegative
per-minute rate), but endTime < startTime is not a defensive error: the billed
minutes clamp to the 1-minute minimum and settlement proceeds normally at
exactly one rate unit. -/
theorem price_clamped_nonnegative (s e rate : Int) (hrate : 0 ≤ rate) :
    0 ≤ priceCalc s e rate ∧ (e < s → priceCalc s e rate = rate) := by
  constructor
  · unfold priceCalc
    exact mul_nonneg (le_trans zero_le_one (le_max_left 1 _)) hrate
  · intro h
    unfold priceCalc
    rw [Int.fdiv_eq_ediv _ (by decide : (0:Int) ≤ 60)]
    have h1 : (e - s) / 60 ≤ (-1 : Int) / 60 :=
      Int.ediv_le_ediv (by decide) (by omega)
    have h2 : ((-1) : Int) / 60 = -1 := by decide
    rw [max_eq_left (by omega)]
    ring

/-- Witness for C8 (amended) at rate 10 with end 61 seconds before start. -/
theorem price_clamped_nonnegative_witness :
    ((0:Int) ≤ 10) ∧ (0 ≤ priceCalc 100 39 10 ∧ ((39:Int) < 100 → priceCalc 100 39 10 = 10)) :=
  ⟨by decide, price_clamped_nonnegative 100 39 10 (by decide)⟩

/-- Counterexample to C7 as stated: the JSON amount 3/2 is not a positive
integer, yet api_charge does not fail with an invalid-amount error — Python's
`int()` truncates it to 1, the balance moves from 100 to 101 and a charge row
is inserted. -/
theorem charge_non_integer_truncates_cex :
    pyInt (mkRat 3 2) = 1 ∧
    (api_charge chargeDemoDB 1 (mkRat 3 2) 0).2 ≠ Except.error ApiError.invalidAmount ∧
    (api_charge chargeDemoDB 1 (mkRat 3 2) 0).2 = Except.ok 101 ∧
    ((api_charge chargeDemoDB 1 (mkRat 3 2) 0).1.users 1).map User.balance_cents
      = some 101 ∧
    ((api_charge chargeDemoDB 1 (mkRat 3 2) 0).1.rentals 1).map Rental.status
      = some RentalStatus.charged :=
  ⟨by decide, fun h => Except.noConfusion h, rfl, rfl, rfl⟩

/-- C7 (amended): for an existing user, api_charge first truncates the JSON
amount toward zero with `int()`.  If the truncation is strictly positive it is
credited to the balance and one "charged" Rental row with NULL battery_id and
`price_cents` = minus the truncated amount is inserted (so a positive integer
amount behaves exactly as the claim states, but a positive non-integer amount
is truncated and charged rather than rejected); if the truncation is ≤ 0 the
call fails with the invalid-amount error and mutates nothing. -/
theorem charge_truncated_amount_spec (db : DB) (u : Nat) (q : ℚ) (t : Int) (u0 : User)
    (hu : db.users u = some u0) :
    (0 < pyInt q →
      (api_charge db u q t).2 = Except.ok (u0.balance_cents + pyInt q) ∧
      ((api_charge db u q t).1.users u).map User.balance_cents
        = some (u0.balance_cents + pyInt q) ∧
      (api_charge db u q t).1.rentals db.nextRentalId
        = some { id := db.nextRentalId, user_id := u, battery_id := none,
                 start_at := t, end_at := none, status := RentalStatus.charged,
                 price_cents := some (-(pyInt q)), return_station_id := none } ∧
      (api_charge db u q t).1.nextRentalId = db.nextRentalId + 1) ∧
    (pyInt q ≤ 0 → api_charge db u q t = (db, Except.error ApiError.invalidAmount)) := by
  constructor
  · intro hpos
    simp only [api_charge, if_neg (by omega : ¬ pyInt q ≤ 0), hu]
    simp
  · intro hle
    simp only [api_charge, if_pos hle]

/-- Witness for C7 (amended) at the integer amount 5. -/
theorem charge_truncated_amount_spec_witness :
    chargeDemoDB.users 1 = some ⟨1, 100⟩ ∧ 0 < pyInt (mkRat 5 1) ∧
    (api_charge chargeDemoDB 1 (mkRat 5 1) 0).2
      = Except.ok ((⟨1, 100⟩ : User).balance_cents + pyInt (mkRat 5 1)) :=
  ⟨rfl, by decide,
   ((charge_truncated_amount_spec chargeDemoDB 1 (mkRat 5 1) 0 ⟨1, 100⟩ rfl).1
      (by decide)).1⟩

/-- C5 is a code bug: user 1's rentals table holds a charge record (rental 1,
status "charged", battery_id NULL), but the history query joins batteries with
an INNER join (only the station join is outer), so the charge record is
silently dropped: the history lists only rental 2.  The callers' own
`battery.serial if battery else ...` guards and the shipped nullable-battery_id
migration show the outer join was intended. -/
theorem history_drops_null_battery_rows :
    (historyDemoDB.rentals 1).map Rental.user_id = some 1 ∧
    (historyDemoDB.rentals 1).map Rental.status = some RentalStatus.charged ∧
    (historyDemoDB.rentals 1).map Rental.battery_id = some none ∧
    (get_user_rentals_with_details historyDemoDB 1).map (fun row => row.1.id) = [2] :=
  ⟨rfl, rfl, rfl, rfl⟩

/-- C4: a return on an existing ongoing rental of the calling user whose
balance is strictly below the computed price fails with the
insufficient-balance error and leaves the database untouched: the balance, the
rental row (still "ongoing", `end_at` and `price_cents` as before) and the
battery row (still unavailable) are all unchanged. -/
theorem return_insufficient_balance_no_mutation (db : DB) (u rid : Nat) (t : Int)
    (r : Rental) (u0 : User)
    (hrid : rid ≠ 0)
    (hr : db.rentals rid = some r) (hru : r.user_id = u)
    (hst : r.status = RentalStatus.ongoing)
    (hu : db.users u = some u0)
    (hbal : u0.balance_cents < priceCalc r.start_at t PRICE_PER_MINUTE_CENTS) :
    api_return db u rid t = (db, Except.error ApiError.insufficientBalance) := by
  simp [api_return, hrid, hr, hru, hst, hu, hbal]

/-- Witness for C4: the holder owns 5 cents, the minute price is 10. -/
theorem return_insufficient_balance_no_mutation_witness :
    (1 : Nat) ≠ 0 ∧
    returnPoorDB.rentals 1 = some ⟨1, 1, some 7, 100, none, RentalStatus.ongoing, none, none⟩ ∧
    (⟨1, 1, some 7, 100, none, RentalStatus.ongoing, none, none⟩ : Rental).user_id = 1 ∧
    returnPoorDB.users 1 = some ⟨1, 5⟩ ∧
    (⟨1, 5⟩ : User).balance_cents
      < priceCalc (⟨1, 1, some 7, 100, none, RentalStatus.ongoing, none, none⟩ : Rental).start_at
          160 PRICE_PER_MINUTE_CENTS ∧
    api_return returnPoorDB 1 1 160 = (returnPoorDB, Except.error ApiError.insufficientBalance) :=
  ⟨by decide, rfl, rfl, rfl, by decide,
   return_insufficient_balance_no_mutation returnPoorDB 1 1 160
     ⟨1, 1, some 7, 100, none, RentalStatus.ongoing, none, none⟩ ⟨1, 5⟩
     (by decide) rfl rfl rfl rfl (by decide)⟩

/-- C6: a rent by an existing user whose balance is strictly below
RENTAL_DEPOSIT_CENTS on an existing available battery fails with the
insufficient-balance error and leaves the database untouched (no Rental row
inserted, no Battery row mutated); and the deposit is only a gate — api_rent
never changes the users table, so nothing is withdrawn on a successful rent
either. -/
theorem rent_insufficient_balance_gate :
    (∀ (db : DB) (u b : Nat) (t : Int) (u0 : User) (bat : Battery), b ≠ 0 →
      db.users u = some u0 → db.batteries b = some bat → bat.available = true →
      u0.balance_cents < RENTAL_DEPOSIT_CENTS →
      api_rent db u b t = (db, Except.error ApiError.insufficientBalance)) ∧
    (∀ (db : DB) (u b : Nat) (t : Int), (api_rent db u b t).1.users = db.users) := by
  constructor
  · intro db u b t u0 bat hb hu hbat hav hbal
    simp [api_rent, hb, hu, hbat, hav, hbal]
  · intro db u b t
    unfold api_rent
    repeat' split
    all_goals rfl

/-- Witness for C6: a user with balance 0 against the 1000-cent deposit gate. -/
theorem rent_insufficient_balance_gate_witness :
    (5 : Nat) ≠ 0 ∧ rentPoorDB.users 1 = some ⟨1, 0⟩ ∧
    rentPoorDB.batteries 5 = some ⟨5, "B5", some 3, true⟩ ∧
    (⟨5, "B5", some 3, true⟩ : Battery).available = true ∧
    (⟨1, 0⟩ : User).balance_cents < RENTAL_DEPOSIT_CENTS ∧
    api_rent rentPoorDB 1 5 100 = (rentPoorDB, Except.error ApiError.insufficientBalance) ∧
    (api_rent rentDemoDB 1 5 100).1.users = rentDemoDB.users :=
  ⟨by decide, rfl, rfl, rfl, by decide,
   rent_insufficient_balance_gate.1 rentPoorDB 1 5 100 ⟨1, 0⟩ ⟨5, "B5", some 3, true⟩
     (by decide) rfl rfl rfl (by decide),
   rent_insufficient_balance_gate.2 rentDemoDB 1 5 100⟩

/-- Characterisation of a successful api_rent: the battery existed and was
available, the user existed with balance at or above the deposit, the new
rental id is the autoincrement counter, and the resulting database is the input
with the battery flipped to unavailable and one fresh ongoing rental row. -/
theorem api_rent_ok (db : DB) (u b : Nat) (t : Int) (rid : Nat)
    (h : (api_rent db u b t).2 = Except.ok rid) :
    rid = db.nextRentalId ∧
    ∃ (bat : Battery) (u0 : User), db.batteries b = some bat ∧ bat.available = true ∧
      db.users u = some u0 ∧ RENTAL_DEPOSIT_CENTS ≤ u0.balance_cents ∧
      (api_rent db u b t).1 = { db with
          batteries := fun i =>
            if i = b then some { bat with available := false } else db.batteries i,
          rentals := fun i =>
            if i = db.nextRentalId then
              some { id := db.nextRentalId, user_id := u, battery_id := some b,
                     start_at := t, end_at := none, status := RentalStatus.ongoing,
                     price_cents := none, return_station_id := none }
            else db.rentals i,
          nextRentalId := db.nextRentalId + 1 } := by
  by_cases hb0 : b = 0
  · simp [api_rent, hb0] at h
  cases hbat : db.batteries b with
  | none => simp [api_rent, hb0, hbat] at h
  | some bat =>
    cases hav : bat.available with
    | false => simp [api_rent, hb0, hbat, hav] at h
    | true =>
      cases hu : db.users u with
      | none => simp [api_rent, hb0, hbat, hav, hu] at h
      | some u0 =>
        by_cases hbal : u0.balance_cents < RENTAL_DEPOSIT_CENTS
        · simp [api_rent, hb0, hbat, hav, hu, hbal] at h
        · have hrid : rid = db.nextRentalId := by
            simp [api_rent, hb0, hbat, hav, hu, hbal] at h
            omega
          refine ⟨hrid, bat, u0, rfl, hav, rfl, by omega, ?_⟩
          simp [api_rent, hb0, hbat, hav, hu, hbal]

/-- Characterisation of a successful api_return: the rental existed, belonged
to the caller and was ongoing, the user existed with balance at or above the
computed price, the rental's battery existed, the answered price and balance
are as computed, and the resulting database is the input with the balance
debited, the rental closed and the battery made available. -/
theorem api_return_ok (db : DB) (u rid : Nat) (t : Int) (pr bal : Int)
    (h : (api_return db u rid t).2 = Except.ok (pr, bal)) :
    ∃ (r : Rental) (u0 : User) (bid : Nat) (bat : Battery),
      db.rentals rid = some r ∧ r.user_id = u ∧ r.status = RentalStatus.ongoing ∧
      db.users u = some u0 ∧
      pr = priceCalc r.start_at t PRICE_PER_MINUTE_CENTS ∧
      pr ≤ u0.balance_cents ∧
      r.battery_id = some bid ∧ db.batteries bid = some bat ∧
      bal = u0.balance_cents - pr ∧
      (api_return db u rid t).1 = { db with
        users := fun i =>
          if i = u then some { u0 with balance_cents := u0.balance_cents - pr }
          else db.users i,
        rentals := fun i =>
          if i = rid then
            some { r with
              end_at := some t,
              price_cents := some pr,
              status := RentalStatus.returned }
          else db.rentals i,
        batteries := fun i =>
          if i = bid then some { bat with available := true } else db.batteries i } := by
  by_cases hr0 : rid = 0
  · simp [api_return, hr0] at h
  cases hr : db.rentals rid with
  | none => simp [api_return, hr0, hr] at h
  | some r =>
    by_cases hcond : r.user_id = u ∧ r.status = RentalStatus.ongoing
    · cases hu : db.users u with
      | none => simp [api_return, hr0, hr, hcond, hu] at h
      | some u0 =>
        by_cases hbal :
            u0.balance_cents < priceCalc r.start_at t PRICE_PER_MINUTE_CENTS
        · simp [api_return, hr0, hr, hcond, hu, hbal] at h
        · cases hbid : r.battery_id with
          | none => simp [api_return, hr0, hr, hcond, hu, hbal, hbid] at h
          | some bid =>
            cases hbat : db.batteries bid with
            | none => simp [api_return, hr0, hr, hcond, hu, hbal, hbid, hbat] at h
            | some bat =>
              have hpb : pr = priceCalc r.start_at t PRICE_PER_MINUTE_CENTS ∧
                  bal = u0.balance_cents - priceCalc r.start_at t PRICE_PER_MINUTE_CENTS := by
                have := h
                simp [api_return, hr0, hr, hcond, hu, hbal, hbid, hbat] at this
                exact ⟨this.1.symm, this.2.symm⟩
              refine ⟨r, u0, bid, bat, rfl, hcond.1, hcond.2, rfl, hpb.1, ?_, hbid, hbat,
                ?_, ?_⟩
              · have h1 := hpb.1
                omega
              · have h1 := hpb.1
                have h2 := hpb.2
                omega
              · rw [hpb.1]
                simp [api_return, hr0, hr, hcond, hu, hbal, hbid, hbat]
    · simp [api_return, hr0, hr, hcond] at h

/-- C3: renting an available battery and immediately returning it (with the
clock not running backwards and no other operation in between) leaves the
user's balance at the pre-rent balance minus the computed price, the battery
available again, and the rental row "returned" with `end_at` set to the return
time, which is at or after its `start_at`. -/
theorem rent_return_round_trip (db : DB) (u b rid : Nat) (t0 t1 : Int) (u0 : User)
    (hu : db.users u = some u0) (ht : t0 ≤ t1)
    (hrent : (api_rent db u b t0).2 = Except.ok rid)
    (hret : ∃ pr bal,
      (api_return (api_rent db u b t0).1 u rid t1).2 = Except.ok (pr, bal)) :
    ((api_return (api_rent db u b t0).1 u rid t1).1.users u).map User.balance_cents
      = some (u0.balance_cents - priceCalc t0 t1 PRICE_PER_MINUTE_CENTS) ∧
    ((api_return (api_rent db u b t0).1 u rid t1).1.batteries b).map Battery.available
      = some true ∧
    ∃ r2 : Rental,
      (api_return (api_rent db u b t0).1 u rid t1).1.rentals rid = some r2 ∧
      r2.status = RentalStatus.returned ∧ r2.end_at = some t1 ∧
      r2.start_at = t0 ∧ r2.start_at ≤ t1 := by
  obtain ⟨pr, bal, hok⟩ := hret
  obtain ⟨hrid, bat, ua, hbat, hav, hua, hdep, hdb1⟩ := api_rent_ok db u b t0 rid hrent
  subst hrid
  obtain ⟨r, ub, bid, batb, hr1, hru, hst, hub, hpr, hble, hbid, hbatb, hbalv, hdb2⟩ :=
    api_return_ok _ u db.nextRentalId t1 pr bal hok
  have hrR : r = { id := db.nextRentalId, user_id := u, battery_id := some b,
                   start_at := t0, end_at := none, status := RentalStatus.ongoing,
                   price_cents := none, return_station_id := none } := by
    rw [hdb1] at hr1
    simp at hr1
    exact hr1.symm
  subst hrR
  have hbidb : b = bid := by
    simpa using hbid
  subst hbidb
  have hub0 : ub = u0 := by
    rw [hdb1] at hub
    simp at hub
    rw [hu] at hub
    exact (Option.some.inj hub).symm
  subst hub0
  have hpr' : pr = priceCalc t0 t1 PRICE_PER_MINUTE_CENTS := hpr
  rw [hdb2]
  refine ⟨?_, ?_, ?_⟩
  · simp [hpr']
  · simp
  · refine ⟨{ id := db.nextRentalId, user_id := u, battery_id := some b, start_at := t0,
              end_at := some t1, status := RentalStatus.returned, price_cents := some pr,
              return_station_id := none }, ?_, rfl, rfl, rfl, ht⟩
    simp

/-- Witness for C3 on a concrete run: rent at t=100, return at t=160, price 10. -/
theorem rent_return_round_trip_witness :
    rentDemoDB.users 1 = some ⟨1, 5000⟩ ∧ (100:Int) ≤ 160 ∧
    (api_rent rentDemoDB 1 5 100).2 = Except.ok 1 ∧
    (∃ pr bal,
      (api_return (api_rent rentDemoDB 1 5 100).1 1 1 160).2 = Except.ok (pr, bal)) ∧
    (((api_return (api_rent rentDemoDB 1 5 100).1 1 1 160).1.users 1).map User.balance_cents
        = some ((⟨1, 5000⟩ : User).balance_cents - priceCalc 100 160 PRICE_PER_MINUTE_CENTS) ∧
      ((api_return (api_rent rentDemoDB 1 5 100).1 1 1 160).1.batteries 5).map Battery.available
        = some true ∧
      ∃ r2 : Rental,
        (api_return (api_rent rentDemoDB 1 5 100).1 1 1 160).1.rentals 1 = some r2 ∧
        r2.status = RentalStatus.returned ∧ r2.end_at = some 160 ∧
        r2.start_at = 100 ∧ r2.start_at ≤ 160) :=
  ⟨rfl, by decide, rfl, ⟨10, 4990, rfl⟩,
   rent_return_round_trip rentDemoDB 1 5 1 100 160 ⟨1, 5000⟩ rfl (by decide) rfl
     ⟨10, 4990, rfl⟩⟩

/-- api_rent preserves the end_at/status consistency of every rental row: it
only adds an ongoing row with `end_at` NULL. -/
theorem rent_preserves_endAt (db : DB) (u b : Nat) (t : Int)
    (h : EndAtConsistent db) : EndAtConsistent (api_rent db u b t).1 := by
  unfold api_rent
  repeat' split
  any_goals exact h
  intro i r hr
  by_cases hi : i = db.nextRentalId
  · subst hi
    simp at hr
    subst hr
    simp
  · simp [hi] at hr
    exact h i r hr

/-- api_return preserves the end_at/status consistency: it sets `end_at` in the
same update that sets status "returned". -/
theorem return_preserves_endAt (db : DB) (u rid : Nat) (t : Int)
    (h : EndAtConsistent db) : EndAtConsistent (api_return db u rid t).1 := by
  unfold api_return
  repeat' split
  any_goals exact h
  intro i r hr
  by_cases hi : i = rid
  · subst hi
    simp at hr
    subst hr
    simp
  · simp [hi] at hr
    exact h i r hr

/-- api_charge preserves the end_at/status consistency: it only adds a
"charged" row with `end_at` NULL. -/
theorem charge_preserves_endAt (db : DB) (u : Nat) (q : ℚ) (t : Int)
    (h : EndAtConsistent db) : EndAtConsistent (api_charge db u q t).1 := by
  unfold api_charge
  repeat' split
  any_goals exact h
  intro i r hr
  by_cases hi : i = db.nextRentalId
  · subst hi
    simp at hr
    subst hr
    simp
  · simp [hi] at hr
    exact h i r hr

/-- C9: in every database reachable from a state satisfying it by any sequence
of committed api_rent, api_return and api_charge requests, a rental row's
`end_at` is set exactly when its status is "returned" (rent and charge create
rows with NULL `end_at` in status "ongoing" / "charged", and return sets
`end_at` in the same update that sets "returned"). -/
theorem end_at_iff_returned_invariant (db db' : DB)
    (h0 : EndAtConsistent db) (hsteps : Relation.ReflTransGen Step db db') :
    EndAtConsistent db' := by
  induction hsteps with
  | refl => exact h0
  | tail hs hstep ih =>
    cases hstep with
    | rent u b t => exact rent_preserves_endAt _ u b t ih
    | ret u rid t => exact return_preserves_endAt _ u rid t ih
    | charge u q t => exact charge_preserves_endAt _ u q t ih

/-- Witness for C9: the demo database with an empty rentals table satisfies the
invariant, and still does after one committed rent request. -/
theorem end_at_iff_returned_invariant_witness :
    EndAtConsistent (api_rent rentDemoDB 1 5 100).1 :=
  end_at_iff_returned_invariant rentDemoDB _
    (fun _ _ hr => Option.noConfusion hr)
    (Relation.ReflTransGen.single (Step.rent rentDemoDB 1 5 100))
